import Mathlib

/-!
Verification of the polling gateway `api_to_mqtt.py`.

The Python source is shallowly embedded: pure helpers become Lean functions,
the per-job polling loop (`run_job`) becomes a step function over the token
state together with an oracle environment describing the external world
(authentication outcome, fetch outcome, clock readings, broker outcomes),
and the bounded audit-log writer (`log_event`) becomes a function on the
log file's list of physical lines.  Concurrent appends are modelled by an
interleaving step relation in the `LogConcurrency` namespace.

Line numbers in doc comments refer to `src/api_to_mqtt.py`.
-/

namespace ApiToMqtt

/-! ### Python string primitives used by the source -/

/-- Python `s.split(sep)[0]` for a one-character separator `sep`: the
characters of `s` strictly before the first occurrence of `sep`
(all of `s` when `sep` does not occur). -/
def py_split_head (s : String) (sep : Char) : String :=
  ⟨s.data.takeWhile (fun c => c ≠ sep)⟩

/-- The whitespace characters removed by Python `str.strip()`. -/
def is_py_space (c : Char) : Bool :=
  c = ' ' || c = '\t' || c = '\n' || c = '\r' || c = '\x0b' || c = '\x0c'

/-- Python `str.strip()`: drop whitespace from both ends. -/
def py_strip (s : String) : String :=
  ⟨((s.data.dropWhile is_py_space).reverse.dropWhile is_py_space).reverse⟩

/-- Python `str.upper()` (the sensor names in scope are ASCII). -/
def py_upper (s : String) : String :=
  ⟨s.data.map Char.toUpper⟩

/-- Python `sep.join(parts)`. -/
def py_join (sep : String) : List String → String
  | [] => ""
  | [x] => x
  | x :: y :: xs => x ++ sep ++ py_join sep (y :: xs)

/-- Python `needle in haystack` on lists of characters: contiguous
substring test, scanning left to right. -/
def py_in_chars (needle : List Char) : List Char → Bool
  | [] => needle.isEmpty
  | c :: cs => needle.isPrefixOf (c :: cs) || py_in_chars needle cs

/-- Python `needle in haystack` for strings (case-sensitive substring test). -/
def py_in (needle haystack : String) : Bool :=
  py_in_chars needle.data haystack.data

/-- Splitting a string into its physical lines at `'\n'`; this is how a
file whose content is this string followed by a final newline is read
back by `readlines()` (one element per physical line). -/
def split_lines_aux : List Char → List Char → List String
  | [], acc => [⟨acc.reverse⟩]
  | c :: cs, acc =>
      if c = '\n' then ⟨acc.reverse⟩ :: split_lines_aux cs []
      else split_lines_aux cs (c :: acc)

/-- Physical lines of a string (see `split_lines_aux`). Always nonempty. -/
def split_lines (s : String) : List String :=
  split_lines_aux s.data []

/-! ### Data model (one fetched device, JSON fields as optional strings)

A device object in the fetched JSON exposes `devicename`, `serialno` and
`realtime : [{sensorname, sensorvalue}...]`; all accesses in the source go
through `dict.get` with a default, so every field is optional here.
`sensorvalue` is modelled by the text Python's f-string would render it to. -/

structure Sensor where
  sensorname : Option String
  sensorvalue : Option String
deriving DecidableEq

structure Device where
  devicename : Option String
  serialno : Option String
  realtime : Option (List Sensor)
deriving DecidableEq

/-- A local timestamp as read by `datetime.now()`. -/
structure PyDateTime where
  year : Nat
  month : Nat
  day : Nat
  hour : Nat
  minute : Nat
  second : Nat
deriving DecidableEq

/-- Zero-padded two-digit rendering (strftime `%m`, `%d`, `%H`, `%M`, `%S`). -/
def pad2 (n : Nat) : String := if n < 10 then "0" ++ toString n else toString n

/-- Zero-padded four-digit rendering (strftime `%Y`). -/
def pad4 (n : Nat) : String :=
  if n < 10 then "000" ++ toString n
  else if n < 100 then "00" ++ toString n
  else if n < 1000 then "0" ++ toString n
  else toString n

/-- `now.strftime("DATE:%Y-%m-%d,%H:%M:%S")` (line 116). -/
def strftime_date (t : PyDateTime) : String :=
  "DATE:" ++ pad4 t.year ++ "-" ++ pad2 t.month ++ "-" ++ pad2 t.day ++ "," ++
    pad2 t.hour ++ ":" ++ pad2 t.minute ++ ":" ++ pad2 t.second

/-- `datetime.now().strftime("%Y-%m-%d %H:%M:%S")` (line 40). -/
def strftime_log (t : PyDateTime) : String :=
  pad4 t.year ++ "-" ++ pad2 t.month ++ "-" ++ pad2 t.day ++ " " ++
    pad2 t.hour ++ ":" ++ pad2 t.minute ++ ":" ++ pad2 t.second

/-! ### Formatter and matcher -/

/-- `sensor.get('sensorname', 'Unknown').split('(')[0].strip().upper()`
(line 111): text before the first `'('`, stripped, upper-cased. -/
def normalize_sensor_name (raw : String) : String :=
  py_upper (py_strip (py_split_head raw '('))

/-- `format_mqtt_string(device_data)` (lines 106-120).  The clock reading
taken by `datetime.now()` at line 115 is injected as `now`.  Every sensor
of `realtime` contributes one `NAME:VALUE` part (there is no filtering to
a recognized channel set in the source); `None` is returned exactly when
no parts were built. -/
def format_mqtt_string (d : Device) (now : PyDateTime) : Option String :=
  let realtime_sensors := d.realtime.getD []
  let data_parts := realtime_sensors.map (fun s =>
    normalize_sensor_name (s.sensorname.getD "Unknown") ++ ":" ++ s.sensorvalue.getD "0")
  let date_str := strftime_date now
  if data_parts.isEmpty then none
  else some (py_join "," data_parts ++ "," ++ date_str)

/-- The match test of line 198:
`(keyword == "*") or (keyword in dev_name) or (keyword in dev_sn)`. -/
def is_match (keyword dev_name dev_sn : String) : Bool :=
  keyword == "*" || py_in keyword dev_name || py_in keyword dev_sn

/-! ### Audit log writer -/

/-- Line 17. -/
def MAX_LOG_LINES : Nat := 100

/-- The log entry text built at lines 40-51 (timestamp injected; a `dict`
or `list` payload arrives already serialized by `json.dumps(..., indent=4)`,
any other payload via `str`). -/
def log_entry_string (timestamp job_name event_type details : String)
    (payload_str : Option String) : String :=
  let base := "[" ++ timestamp ++ "] [" ++ job_name ++ "] " ++ event_type ++ " | " ++ details
  match payload_str with
  | none => base
  | some p => base ++ "\n--- PAYLOAD ---\n" ++ p ++ "\n----------------"

/-- The file update performed by `log_event` (lines 53-68) on the single
module-level log target `LOG_FILENAME` (line 13), which is shared by every
job.  The state is the file's list of physical lines.  `readlines()` yields
one Python-list element per physical line; the new entry (`log_entry + "\n"`,
line 60) is appended as ONE element even when it spans several physical
lines; the element list is trimmed to its last `MAX_LOG_LINES` elements
(lines 63-64); `writelines` concatenates the kept elements back into the
file, whose physical lines are returned. -/
def log_event (file : List String) (log_entry : String) : List String :=
  let elems : List (List String) := file.map (fun l => [l]) ++ [split_lines log_entry]
  let kept := if MAX_LOG_LINES < elems.length then elems.drop (elems.length - MAX_LOG_LINES) else elems
  kept.flatten

/-! ### The formatter as the specification words it (for refinement
comparison only; `format_mqtt_string` above is the source's behaviour) -/

/-- Modelled from the spec (section 4.2): map a normalized sensor name to
the fixed recognized channel set, PM25 (aliases "PM2.5", "PM25"), PM10,
TEMP (aliases "TEMPERATURE", "TEMP"), HUM (aliases "HUMIDITY", "HUM");
unrecognized names map to `none`. -/
def recognized_channel (norm : String) : Option String :=
  if norm = "PM2.5" ∨ norm = "PM25" then some "PM25"
  else if norm = "PM10" then some "PM10"
  else if norm = "TEMPERATURE" ∨ norm = "TEMP" then some "TEMP"
  else if norm = "HUMIDITY" ∨ norm = "HUM" then some "HUM"
  else none

/-- Modelled from the spec (section 4.2): the value of a recognized
channel on a device, taken from the first sensor reading mapping to it. -/
def spec_channel_value (d : Device) (channel : String) : Option String :=
  ((d.realtime.getD []).find? (fun s =>
      recognized_channel (normalize_sensor_name (s.sensorname.getD "Unknown")) == some channel)).map
    (fun s => s.sensorvalue.getD "0")

/-- Modelled from the spec (section 4.2): the formatter the specification
describes — recognized channels only, emitted in the fixed order
PM25, PM10, TEMP, HUM, only those present, then one trailing DATE field;
no payload when no channel was recognized. -/
def format_spec (d : Device) (now : PyDateTime) : Option String :=
  let parts := ["PM25", "PM10", "TEMP", "HUM"].filterMap (fun ch =>
    (spec_channel_value d ch).map (fun v => ch ++ ":" ++ v))
  if parts.isEmpty then none
  else some (py_join "," parts ++ "," ++ strftime_date now)

/-! ### Job runner: one iteration of the `run_job` loop (lines 144-229)

External collaborators are oracles: the outcome of the login POST, the
outcome of the device-list GET, the successive `datetime.now()` readings
consumed by `format_mqtt_string`, and the successive broker outcomes of
`publish_mqtt`.  One loop iteration maps the current token state to the
next token state plus the trace of observable actions it performs. -/

/-- The form-encoded body of the login POST (lines 80, 84). -/
structure LoginForm where
  email : String
  password : String
deriving DecidableEq

/-- `mqtt_conf` fields as read by `publish_mqtt` (lines 123-127). -/
structure MqttConf where
  broker : Option String
  port : Option Nat
  username : Option String
  password : Option String
  topic : Option String
deriving DecidableEq

/-- One routing rule (`map_rule`, lines 193-195). -/
structure MapRule where
  device_keyword : Option String
  mqtt : Option MqttConf
deriving DecidableEq

/-- Outcome of the login POST of `get_api_token` (lines 85-100):
`success` is HTTP 200 with a parseable body holding a `token` field
(possibly empty); `failure` is a completed request granting no token
(non-200, or 200 whose parsed body lacks `token`); `ok200nonJson` is an
HTTP 200 whose body fails to parse (the second `response.json()` at line
96 then raises); `raised` is an exception out of the POST itself. -/
inductive AuthResult where
  | success (token : String)
  | failure
  | ok200nonJson
  | raised (msg : String)
deriving DecidableEq

/-- Outcome of the device-list GET (lines 169-179): a completed response
with its status and the result of `response.json()` (`none` when parsing
raises `json.JSONDecodeError`; `some ds` carries `raw_json.get('data', [])`),
a `requests` timeout, or any other exception. -/
inductive FetchResult where
  | response (status : Nat) (parsed : Option (List Device))
  | timeout
  | raised (msg : String)
deriving DecidableEq

/-- Observable actions of one loop iteration, in program order. -/
inductive Action where
  | logLoginRequest (form : LoginForm)
  | httpLoginPost (form : LoginForm)
  | logged (event_type : String)
  | httpFetch (authToken : String)
  | publishInvoke (payload : String) (conf : Option MqttConf)
  | sleepBackoff
  | sleepInterval
deriving DecidableEq

/-- The oracle environment of one loop iteration. -/
structure Env where
  auth : AuthResult
  fetch : FetchResult
  clock : Nat → PyDateTime
  pubOk : Nat → Bool

/-- `get_api_token(email, password, job_name)` (lines 77-104): logs the
login request with the password replaced by `'***REDACTED***'` (lines
80-81), POSTs the original credentials (lines 84-85), then logs the
response or the exception; returns the token on success. -/
def get_api_token (email password : String) (res : AuthResult) :
    Option String × List Action :=
  let pre := [Action.logLoginRequest ⟨email, "***REDACTED***"⟩,
              Action.httpLoginPost ⟨email, password⟩]
  match res with
  | .success t => (some t, pre ++ [Action.logged "API_LOGIN_RESPONSE"])
  | .failure => (none, pre ++ [Action.logged "API_LOGIN_RESPONSE"])
  | .ok200nonJson =>
      (none, pre ++ [Action.logged "API_LOGIN_RESPONSE", Action.logged "AUTH_ERROR_EXCEPTION"])
  | .raised _ => (none, pre ++ [Action.logged "AUTH_ERROR_EXCEPTION"])

/-- `publish_mqtt(payload, mqtt_conf, job_name)` (lines 122-142): invoking
the broker either succeeds, or fails and additionally logs a
`MQTT_CONNECT_ERROR` entry (line 141); the broker outcome `ok` is the
oracle's. -/
def publish_mqtt (payload : String) (conf : Option MqttConf) (ok : Bool) :
    Bool × List Action :=
  if ok then (true, [Action.publishInvoke payload conf])
  else (false, [Action.publishInvoke payload conf, Action.logged "MQTT_CONNECT_ERROR"])

/-- Processing of one `map_rule` for one device (lines 193-212). `clk`
counts the `datetime.now()` readings consumed so far in this cycle, `pub`
the `publish_mqtt` invocations so far. -/
def process_rule (env : Env) (d : Device) (dev_name dev_sn : String) (r : MapRule)
    (clk pub : Nat) : List Action × Nat × Nat :=
  let keyword := r.device_keyword.getD "*"
  if is_match keyword dev_name dev_sn then
    match format_mqtt_string d (env.clock clk) with
    | some payload =>
        let res := publish_mqtt payload r.mqtt (env.pubOk pub)
        let tail := if res.1 then [Action.logged "MQTT_PUBLISH_SUCCESS"]
                    else [Action.logged "MQTT_PUBLISH_FAILURE"]
        (res.2 ++ tail, clk + 1, pub + 1)
    | none => ([Action.logged "DATA_FORMAT_ERROR"], clk + 1, pub)
  else ([], clk, pub)

/-- The inner `for map_rule in mappings` loop (lines 193-212). -/
def process_rules (env : Env) (d : Device) (dev_name dev_sn : String) :
    List MapRule → Nat → Nat → List Action × Nat × Nat
  | [], clk, pub => ([], clk, pub)
  | r :: rest, clk, pub =>
      let step := process_rule env d dev_name dev_sn r clk pub
      let next := process_rules env d dev_name dev_sn rest step.2.1 step.2.2
      (step.1 ++ next.1, next.2)

/-- Per-device dispatch (lines 188-212): the device's name and serial are
read with `dict.get` defaults, then every rule is checked. -/
def process_device (env : Env) (mappings : List MapRule) (d : Device)
    (clk pub : Nat) : List Action × Nat × Nat :=
  process_rules env d (d.devicename.getD "") (d.serialno.getD "") mappings clk pub

/-- The outer `for device in devices_list` loop (lines 188-212). -/
def process_devices (env : Env) (mappings : List MapRule) :
    List Device → Nat → Nat → List Action × Nat × Nat
  | [], clk, pub => ([], clk, pub)
  | d :: rest, clk, pub =>
      let step := process_device env mappings d clk pub
      let next := process_devices env mappings rest step.2.1 step.2.2
      (step.1 ++ next.1, next.2)

/-- Python truthiness of the token variable: `None` and the empty string
are falsy (`if not token`, lines 157, 159). -/
def py_not_token (t : Option String) : Bool :=
  t = none || t = some ""

/-- The fetch part of one loop iteration (lines 163-225), entered with a
truthy token `t`.  Control flow of the source: log the fetch request and
issue the GET; on status 401 log `API_TOKEN_EXPIRED`, clear the token and
`continue` (skipping the interval sleep, lines 171-175); otherwise parse
the body (a parse failure raises, caught at line 216 leaving the token
untouched); log the fetch response; on status 200 process every device,
other statuses only print; a timeout is caught at line 219 keeping the
token; any other exception is caught at line 222 and clears the token.
All paths except the 401 `continue` end with the interval sleep of line
229. -/
def fetch_phase (env : Env) (mappings : List MapRule) (t : String) :
    Option String × List Action :=
  let pre := [Action.logged "API_DEVICE_FETCH_REQUEST", Action.httpFetch t]
  match env.fetch with
  | .response status parsed =>
      if status = 401 then
        (none, pre ++ [Action.logged "API_TOKEN_EXPIRED"])
      else
        match parsed with
        | none =>
            (some t, pre ++ [Action.logged "API_RESPONSE_ERROR", Action.sleepInterval])
        | some ds =>
            if status = 200 then
              (some t, pre ++ [Action.logged "API_DEVICE_FETCH_RESPONSE"]
                ++ (process_devices env mappings ds 0 0).1 ++ [Action.sleepInterval])
            else
              (some t, pre ++ [Action.logged "API_DEVICE_FETCH_RESPONSE", Action.sleepInterval])
  | .timeout =>
      (some t, pre ++ [Action.logged "API_TIMEOUT_ERROR", Action.sleepInterval])
  | .raised _ =>
      (none, pre ++ [Action.logged "LOOP_EXCEPTION", Action.sleepInterval])

/-- One iteration of the `while True` loop of `run_job` (lines 153-229):
with a falsy token, authenticate first; a still-falsy token sleeps the
fixed 10-second backoff and restarts (lines 159-161); a truthy token
proceeds to the fetch phase. -/
def run_job_step (env : Env) (email password : String) (mappings : List MapRule)
    (token : Option String) : Option String × List Action :=
  if py_not_token token then
    let auth := get_api_token email password env.auth
    if py_not_token auth.1 then
      (auth.1, auth.2 ++ [Action.sleepBackoff])
    else
      let fp := fetch_phase env mappings (auth.1.getD "")
      (fp.1, auth.2 ++ fp.2)
  else
    fetch_phase env mappings (token.getD "")

/-! ### Trace observers -/

/-- The publish invocations of a trace, in order. -/
def publishInvokes : List Action → List (String × Option MqttConf)
  | [] => []
  | .publishInvoke p c :: rest => (p, c) :: publishInvokes rest
  | _ :: rest => publishInvokes rest

/-- The login-request audit entries of a trace, in order. -/
def loginRequestLogs : List Action → List LoginForm
  | [] => []
  | .logLoginRequest f :: rest => f :: loginRequestLogs rest
  | _ :: rest => loginRequestLogs rest

/-- Of the two action kinds {device-list fetch, login POST}, the first one
occurring in the trace is a login POST (vacuously true when neither
occurs): the runner re-authenticates before any further fetch. -/
def authBeforeFetch : List Action → Bool
  | [] => true
  | .httpFetch _ :: _ => false
  | .httpLoginPost _ :: _ => true
  | _ :: rest => authBeforeFetch rest

/-! ### Concurrent appends under `LOG_LOCK`

`log_event` takes the module-level `LOG_LOCK` (line 14) around its whole
read-modify-write cycle (lines 38-68).  We model any number of workers,
each performing one append of its entry: a worker acquires the lock, reads
the file into a snapshot, writes back `log_event snapshot entry`, and
releases the lock.  Interleaving is arbitrary except that acquiring blocks
while another worker holds the lock. -/

namespace LogConcurrency

/-- Control state of one worker appending one entry. -/
inductive TState where
  | start
  | locked
  | readDone (snapshot : List String)
  | writeDone
  | done
deriving DecidableEq

/-- The shared state: the log file's physical lines, the lock holder, and
every worker's control state. -/
structure Sys (n : Nat) where
  file : List String
  lock : Option (Fin n)
  th : Fin n → TState

variable {n : Nat}

/-- Worker `i` takes `LOG_LOCK` (entering the `with LOG_LOCK` block, line 38). -/
def Sys.doAcquire (s : Sys n) (i : Fin n) : Sys n :=
  { s with lock := some i, th := Function.update s.th i .locked }

/-- Worker `i` reads the current file into its local `lines` (lines 54-57). -/
def Sys.doRead (s : Sys n) (i : Fin n) : Sys n :=
  { s with th := Function.update s.th i (.readDone s.file) }

/-- Worker `i` writes back its appended-and-trimmed lines (lines 60-68). -/
def Sys.doWrite (entries : Fin n → String) (s : Sys n) (i : Fin n)
    (snap : List String) : Sys n :=
  { s with file := log_event snap (entries i),
           th := Function.update s.th i .writeDone }

/-- Worker `i` releases `LOG_LOCK` (leaving the `with` block). -/
def Sys.doRelease (s : Sys n) (i : Fin n) : Sys n :=
  { s with lock := none, th := Function.update s.th i .done }

/-- One interleaving step: any worker may move, but acquiring requires the
lock to be free, and reading/writing/releasing require holding it. -/
inductive Step (entries : Fin n → String) : Sys n → Sys n → Prop where
  | acquire (i : Fin n) (s : Sys n) (h1 : s.lock = none) (h2 : s.th i = .start) :
      Step entries s (s.doAcquire i)
  | read (i : Fin n) (s : Sys n) (h1 : s.lock = some i) (h2 : s.th i = .locked) :
      Step entries s (s.doRead i)
  | write (i : Fin n) (s : Sys n) (snap : List String) (h1 : s.lock = some i)
      (h2 : s.th i = .readDone snap) :
      Step entries s (Sys.doWrite entries s i snap)
  | release (i : Fin n) (s : Sys n) (h1 : s.lock = some i) (h2 : s.th i = .writeDone) :
      Step entries s (s.doRelease i)

/-- All workers pending, lock free, file holding `f0`. -/
def init (n : Nat) (f0 : List String) : Sys n :=
  ⟨f0, none, fun _ => .start⟩

/-- History invariant: some duplicate-free list `order` records exactly the
workers that have performed their write, in write order; the file is the
serial composition of their appends; a worker holding a read snapshot holds
the lock and its snapshot is the current file; any worker between acquire
and release is the lock holder. -/
def Inv (entries : Fin n → String) (f0 : List String) (s : Sys n) : Prop :=
  ∃ order : List (Fin n),
    order.Nodup ∧
    (∀ i, i ∈ order ↔ (s.th i = .writeDone ∨ s.th i = .done)) ∧
    s.file = order.foldl (fun f i => log_event f (entries i)) f0 ∧
    (∀ i snap, s.th i = .readDone snap → s.lock = some i ∧ snap = s.file) ∧
    (∀ i, (s.th i = .locked ∨ (∃ sn, s.th i = .readDone sn) ∨ s.th i = .writeDone) →
      s.lock = some i)

theorem Inv_init (entries : Fin n → String) (f0 : List String) :
    Inv entries f0 (init n f0) := by
  refine ⟨[], List.nodup_nil, ?_, rfl, ?_, ?_⟩
  · intro i; simp [init]
  · intro i snap h; simp [init] at h
  · intro i h; simp [init] at h

theorem Inv_step {entries : Fin n → String} {f0 : List String} {s s' : Sys n}
    (hstep : Step entries s s') (hinv : Inv entries f0 s) : Inv entries f0 s' := by
  obtain ⟨order, hnd, hmem, hfile, hsnap, hlock⟩ := hinv
  cases hstep with
  | acquire i s h1 h2 =>
      refine ⟨order, hnd, ?_, hfile, ?_, ?_⟩
      · intro j
        by_cases hji : j = i
        · subst hji
          simp only [Sys.doAcquire, Function.update_same]
          rw [hmem j, h2]
          simp
        · simpa only [Sys.doAcquire, Function.update_noteq hji] using hmem j
      · intro j snap hj
        by_cases hji : j = i
        · subst hji; simp only [Sys.doAcquire, Function.update_same] at hj
          exact absurd hj (by simp)
        · simp only [Sys.doAcquire, Function.update_noteq hji] at hj
          exact absurd (hsnap j snap hj).1 (by rw [h1]; simp)
      · intro j hj
        by_cases hji : j = i
        · subst hji; rfl
        · simp only [Sys.doAcquire, Function.update_noteq hji] at hj
          exact absurd (h1 ▸ hlock j hj) (by simp)
  | read i s h1 h2 =>
      refine ⟨order, hnd, ?_, hfile, ?_, ?_⟩
      · intro j
        by_cases hji : j = i
        · subst hji
          simp only [Sys.doRead, Function.update_same]
          rw [hmem j, h2]
          simp
        · simpa only [Sys.doRead, Function.update_noteq hji] using hmem j
      · intro j snap hj
        by_cases hji : j = i
        · subst hji
          simp only [Sys.doRead, Function.update_same, TState.readDone.injEq] at hj
          exact ⟨h1, hj.symm⟩
        · simp only [Sys.doRead, Function.update_noteq hji] at hj
          have := (hsnap j snap hj).1
          rw [h1] at this
          exact absurd (Option.some.inj this).symm hji
      · intro j hj
        by_cases hji : j = i
        · subst hji; exact h1
        · simp only [Sys.doRead, Function.update_noteq hji] at hj
          have := hlock j hj
          rw [h1] at this
          exact absurd (Option.some.inj this).symm hji
  | write i s snap h1 h2 =>
      obtain ⟨-, hsnapfile⟩ := hsnap i snap h2
      have hinotin : i ∉ order := by
        rw [hmem i, h2]; simp
      refine ⟨order ++ [i], ?_, ?_, ?_, ?_, ?_⟩
      · rw [List.nodup_append]
        exact ⟨hnd, List.nodup_singleton i, by simpa using hinotin⟩
      · intro j
        by_cases hji : j = i
        · subst hji
          simp [Sys.doWrite, Function.update_same]
        · simp only [Sys.doWrite, Function.update_noteq hji, List.mem_append,
            List.mem_singleton, hji, or_false]
          exact hmem j
      · show log_event snap (entries i) = _
        rw [List.foldl_append, ← hfile, hsnapfile]
        rfl
      · intro j sn hj
        by_cases hji : j = i
        · subst hji
          simp only [Sys.doWrite, Function.update_same] at hj
          exact absurd hj (by simp)
        · simp only [Sys.doWrite, Function.update_noteq hji] at hj
          have := (hsnap j sn hj).1
          rw [h1] at this
          exact absurd (Option.some.inj this).symm hji
      · intro j hj
        by_cases hji : j = i
        · subst hji; exact h1
        · simp only [Sys.doWrite, Function.update_noteq hji] at hj
          have := hlock j hj
          rw [h1] at this
          exact absurd (Option.some.inj this).symm hji
  | release i s h1 h2 =>
      refine ⟨order, hnd, ?_, hfile, ?_, ?_⟩
      · intro j
        by_cases hji : j = i
        · subst hji
          simp only [Sys.doRelease, Function.update_same]
          rw [hmem j, h2]
          simp
        · simpa only [Sys.doRelease, Function.update_noteq hji] using hmem j
      · intro j sn hj
        by_cases hji : j = i
        · subst hji
          simp only [Sys.doRelease, Function.update_same] at hj
          exact absurd hj (by simp)
        · simp only [Sys.doRelease, Function.update_noteq hji] at hj
          have := (hsnap j sn hj).1
          rw [h1] at this
          exact absurd (Option.some.inj this).symm hji
      · intro j hj
        by_cases hji : j = i
        · subst hji
          simp only [Sys.doRelease, Function.update_same] at hj
          rcases hj with h | ⟨sn, h⟩ | h <;> exact absurd h (by simp)
        · simp only [Sys.doRelease, Function.update_noteq hji] at hj
          have := hlock j hj
          rw [h1] at this
          exact absurd (Option.some.inj this).symm hji

theorem Inv_reach {entries : Fin n → String} {f0 : List String} {s s' : Sys n}
    (h : Relation.ReflTransGen (Step entries) s s') (hinv : Inv entries f0 s) :
    Inv entries f0 s' := by
  induction h with
  | refl => exact hinv
  | tail _ hstep ih => exact Inv_step hstep ih

end LogConcurrency

/-! ### Helper lemmas -/

theorem flatten_map_singleton (l : List String) :
    (l.map (fun x => [x])).flatten = l := by
  induction l with
  | nil => rfl
  | cons a t ih => simp [ih]

theorem isPrefixOf_iff_char (l₁ l₂ : List Char) :
    l₁.isPrefixOf l₂ = true ↔ l₁ <+: l₂ := by
  induction l₁ generalizing l₂ with
  | nil => simp
  | cons a t ih =>
      cases l₂ with
      | nil => simp [List.isPrefixOf]
      | cons b s =>
          rw [List.isPrefixOf_cons₂, List.cons_prefix_cons]
          simp [ih]

theorem py_in_chars_iff (needle haystack : List Char) :
    py_in_chars needle haystack = true ↔ needle <:+: haystack := by
  induction haystack with
  | nil =>
      simp [py_in_chars, List.isEmpty_iff]
  | cons c cs ih =>
      simp only [py_in_chars, Bool.or_eq_true, isPrefixOf_iff_char, ih,
        List.infix_cons_iff]

theorem py_in_iff (needle haystack : String) :
    py_in needle haystack = true ↔ needle.data <:+: haystack.data :=
  py_in_chars_iff _ _

theorem publishInvokes_append (a b : List Action) :
    publishInvokes (a ++ b) = publishInvokes a ++ publishInvokes b := by
  induction a with
  | nil => rfl
  | cons x t ih => cases x <;> simp [publishInvokes, ih]

/-! ### Claims about the audit log writer (C2, C3) -/

set_option maxRecDepth 4000 in
/-- C3, counterexample: after appending an entry whose serialized payload
block spans several physical lines to a file already holding
`MAX_LOG_LINES` lines, the file retains 104 physical lines — the
configured cap of 100 is exceeded, because the freshly appended multi-line
entry is trimmed as a single element (line 60), not as its physical lines. -/
theorem log_event_cap_exceeded_cex :
    (log_event (List.replicate 100 "x")
        (log_entry_string "2024-01-01 00:00:00" "JobA" "EV" "d" (some "p1\np2"))).length = 104
      ∧ MAX_LOG_LINES < 104 := by decide

/-- C3 (amended): after an append, the retained physical lines are a
suffix of the previous lines followed by the entry's lines (eviction is
strictly oldest-first by physical line), and the retained count is
`min (previous count) (MAX_LOG_LINES - 1)` plus the entry's line count:
the entry being appended is counted as ONE unit at trim time, so a
multi-line payload block can leave the file above the cap until later
appends (whose re-read counts its lines individually). -/
theorem log_event_length_and_fifo (file : List String) (e : String) :
    (log_event file e).length
        = min file.length (MAX_LOG_LINES - 1) + (split_lines e).length
      ∧ log_event file e <:+ file ++ split_lines e := by
  simp only [log_event]
  have hlen : (file.map (fun l => [l]) ++ [split_lines e]).length = file.length + 1 := by
    simp
  by_cases h : MAX_LOG_LINES < file.length + 1
  · have hMAX : MAX_LOG_LINES = 100 := rfl
    have hk : file.length + 1 - MAX_LOG_LINES ≤ file.length := by omega
    rw [hlen, if_pos h, List.drop_append_of_le_length (by simpa using hk),
      ← List.map_drop, List.flatten_append, flatten_map_singleton]
    constructor
    · simp only [List.flatten_cons, List.flatten_nil, List.append_nil,
        List.length_append, List.length_drop]
      omega
    · obtain ⟨s, hs⟩ := List.drop_suffix (file.length + 1 - MAX_LOG_LINES) file
      exact ⟨s, by rw [List.flatten_cons, List.flatten_nil, List.append_nil,
        ← List.append_assoc, hs]⟩
  · have hMAX : MAX_LOG_LINES = 100 := rfl
    rw [hlen, if_neg h, List.flatten_append, flatten_map_singleton]
    constructor
    · simp only [List.flatten_cons, List.flatten_nil, List.append_nil, List.length_append]
      omega
    · rw [List.flatten_cons, List.flatten_nil, List.append_nil]

set_option maxRecDepth 4000 in
/-- C2, counterexample: all jobs write to the single shared target
`LOG_FILENAME`; with the shared file at the cap holding 100 lines written
for job "JobB", one append for the distinct job "JobA" evicts the oldest
"JobB" line — job B retains 99 of its entries where it had 100. -/
theorem log_event_cross_job_eviction_cex :
    (List.replicate 100 (log_entry_string "2024-01-01 00:00:00" "JobB" "EV" "d" none)).count
        (log_entry_string "2024-01-01 00:00:00" "JobB" "EV" "d" none) = 100
      ∧ (log_event
            (List.replicate 100 (log_entry_string "2024-01-01 00:00:00" "JobB" "EV" "d" none))
            (log_entry_string "2024-01-01 00:00:01" "JobA" "EV" "d" none)).count
          (log_entry_string "2024-01-01 00:00:00" "JobB" "EV" "d" none) = 99 := by decide

/-- C2 (amended): the writer maintains a single append target shared by
every job (`LOG_FILENAME`, line 13), not one per job name; an append —
for any job — preserves all previously retained lines exactly as long as
the shared file is below the cap; once the cap is reached, an append
evicts the oldest retained lines regardless of which job wrote them. -/
theorem log_event_append_below_cap (file : List String) (e : String)
    (h : file.length < MAX_LOG_LINES) :
    log_event file e = file ++ split_lines e := by
  simp only [log_event]
  have hlen : (file.map (fun l => [l]) ++ [split_lines e]).length = file.length + 1 := by
    simp
  rw [hlen, if_neg (by omega), List.flatten_append, flatten_map_singleton,
    List.flatten_cons, List.flatten_nil, List.append_nil]

/-- Witness for `log_event_append_below_cap` at a concrete small file. -/
theorem log_event_append_below_cap_witness :
    (["[t] [JobB] EV | d"] : List String).length < MAX_LOG_LINES
      ∧ log_event ["[t] [JobB] EV | d"] "[t] [JobA] EV | d"
          = ["[t] [JobB] EV | d"] ++ split_lines "[t] [JobA] EV | d" :=
  ⟨by decide, log_event_append_below_cap ["[t] [JobB] EV | d"] "[t] [JobA] EV | d" (by decide)⟩

/-! ### Claims about the formatter and dispatch (C1, C4) -/

/-- A fixed clock reading used by concrete scenarios. -/
def t0 : PyDateTime := ⟨2024, 1, 2, 3, 4, 5⟩

/-- A device carrying one recognized channel (PM2.5) and one sensor
outside the spec's recognized set (CO2). -/
def devMixed : Device :=
  ⟨some "Sensor-A", some "SN-1",
   some [⟨some "PM2.5 (ug/m3)", some "12"⟩, ⟨some "CO2 (ppm)", some "5"⟩]⟩

/-- A device carrying only sensors outside the spec's recognized set. -/
def devCO2 : Device :=
  ⟨some "Sensor-B", some "SN-2", some [⟨some "CO2 (ppm)", some "5"⟩]⟩

/-- A device whose `realtime` list is empty. -/
def devNoReadings : Device := ⟨some "Empty", some "SN-0", some []⟩

/-- A catch-all routing rule. -/
def ruleStar : MapRule :=
  ⟨some "*", some ⟨some "broker", some 1883, none, none, some "topic"⟩⟩

/-- A keyword rule matching devices whose name or serial holds "Sensor". -/
def ruleSensor : MapRule :=
  ⟨some "Sensor", some ⟨some "broker2", some 1883, none, none, some "topic2"⟩⟩

/-- An environment with a steady clock and an always-successful broker. -/
def envSteady : Env :=
  ⟨AuthResult.success "tok", FetchResult.response 200 (some []), fun _ => t0, fun _ => true⟩

/-- C1, counterexample: on a device holding a PM2.5 reading and a CO2
reading, `format_mqtt_string` emits the unrecognized channel CO2 and keeps
the raw normalized key "PM2.5" (no alias mapping to PM25), so its output
differs from the recognized-set/fixed-order formatter the spec describes. -/
theorem format_emits_unrecognized_cex :
    format_mqtt_string devMixed t0 = some "PM2.5:12,CO2:5,DATE:2024-01-02,03:04:05"
      ∧ format_spec devMixed t0 = some "PM25:12,DATE:2024-01-02,03:04:05"
      ∧ format_mqtt_string devMixed t0 ≠ format_spec devMixed t0 := by decide

/-- C1 (amended): for every device with at least one sensor reading,
`format_mqtt_string` emits one `KEY:VALUE` field per sensor reading of
`realtime`, in input order, where KEY is the normalized sensor name (text
before the first `(`, stripped, upper-cased) — with no filtering to a
recognized channel set, no alias mapping and no reordering — followed by
exactly one trailing `DATE:<YYYY-MM-DD,HH:MM:SS>` field. -/
theorem format_mqtt_string_characterization (d : Device) (now : PyDateTime)
    (h : d.realtime.getD [] ≠ []) :
    format_mqtt_string d now =
      some (py_join "," ((d.realtime.getD []).map (fun s =>
          normalize_sensor_name (s.sensorname.getD "Unknown") ++ ":" ++ s.sensorvalue.getD "0"))
        ++ "," ++ strftime_date now) := by
  cases hd : d.realtime.getD [] with
  | nil => exact absurd hd h
  | cons a t => simp [format_mqtt_string, hd]

/-- Witness for `format_mqtt_string_characterization` at `devMixed`. -/
theorem format_mqtt_string_characterization_witness :
    devMixed.realtime.getD [] ≠ []
      ∧ format_mqtt_string devMixed t0 =
          some (py_join "," ((devMixed.realtime.getD []).map (fun s =>
              normalize_sensor_name (s.sensorname.getD "Unknown") ++ ":" ++ s.sensorvalue.getD "0"))
            ++ "," ++ strftime_date t0) :=
  ⟨by decide, format_mqtt_string_characterization devMixed t0 (by decide)⟩

/-- C4, counterexample: `devCO2` has zero recognized sensor channels
(every sensor normalizes outside the recognized set), yet the formatter
yields a payload and the runner publishes it for a matching rule, instead
of skipping publish. -/
theorem format_zero_recognized_still_publishes_cex :
    ((devCO2.realtime.getD []).all (fun s =>
        (recognized_channel (normalize_sensor_name (s.sensorname.getD "Unknown"))).isNone)) = true
      ∧ format_mqtt_string devCO2 t0 = some "CO2:5,DATE:2024-01-02,03:04:05"
      ∧ publishInvokes (process_device envSteady [ruleStar] devCO2 0 0).1
          = [("CO2:5,DATE:2024-01-02,03:04:05", ruleStar.mqtt)] := by decide

theorem process_rule_no_match (env : Env) (d : Device) (dn sn : String) (r : MapRule)
    (clk pub : Nat) (hm : is_match (r.device_keyword.getD "*") dn sn = false) :
    process_rule env d dn sn r clk pub = ([], clk, pub) := by
  simp [process_rule, hm]

theorem process_rule_fmt_none (env : Env) (d : Device) (dn sn : String) (r : MapRule)
    (clk pub : Nat) (hm : is_match (r.device_keyword.getD "*") dn sn = true)
    (hf : format_mqtt_string d (env.clock clk) = none) :
    process_rule env d dn sn r clk pub = ([Action.logged "DATA_FORMAT_ERROR"], clk + 1, pub) := by
  simp [process_rule, hm, hf]

theorem process_rule_fmt_some (env : Env) (d : Device) (dn sn : String) (r : MapRule)
    (clk pub : Nat) (payload : String)
    (hm : is_match (r.device_keyword.getD "*") dn sn = true)
    (hf : format_mqtt_string d (env.clock clk) = some payload) :
    process_rule env d dn sn r clk pub =
      (Action.publishInvoke payload r.mqtt ::
        (if env.pubOk pub then [Action.logged "MQTT_PUBLISH_SUCCESS"]
         else [Action.logged "MQTT_CONNECT_ERROR", Action.logged "MQTT_PUBLISH_FAILURE"]),
       clk + 1, pub + 1) := by
  cases hpub : env.pubOk pub <;> simp [process_rule, hm, hf, publish_mqtt, hpub]

/-- The publish invocations of the per-device rule loop, in closed form:
nothing when the formatter yields no payload, otherwise one invocation per
matching rule, in rule order, all carrying the same payload.  Requires a
clock that does not advance during the cycle; the result is independent of
the entry counters. -/
theorem publishInvokes_process_rules_eq (env : Env)
    (hc : ∀ m, env.clock m = env.clock 0) (d : Device) (dn sn : String) :
    ∀ (rules : List MapRule) (clk pub : Nat),
      publishInvokes (process_rules env d dn sn rules clk pub).1
        = (format_mqtt_string d (env.clock 0)).elim []
            (fun p => (rules.filter (fun r => is_match (r.device_keyword.getD "*") dn sn)).map
              (fun r => (p, r.mqtt))) := by
  intro rules
  induction rules with
  | nil =>
      intro clk pub
      cases hf : format_mqtt_string d (env.clock 0) <;>
        simp [process_rules, publishInvokes, hf]
  | cons r rest ih =>
      intro clk pub
      simp only [process_rules]
      cases hm : is_match (r.device_keyword.getD "*") dn sn with
      | false =>
          rw [process_rule_no_match env d dn sn r clk pub hm]
          cases hf : format_mqtt_string d (env.clock 0) <;>
            simp [publishInvokes_append, ih, hf, List.filter_cons, hm]
      | true =>
          cases hf : format_mqtt_string d (env.clock 0) with
          | none =>
              rw [process_rule_fmt_none env d dn sn r clk pub hm (by rw [hc clk, hf])]
              simpa [publishInvokes_append, publishInvokes, hf] using ih (clk + 1) pub
          | some payload =>
              rw [process_rule_fmt_some env d dn sn r clk pub payload hm (by rw [hc clk, hf])]
              cases hpub : env.pubOk pub <;>
                simp [publishInvokes_append, publishInvokes, ih, hf, List.filter_cons, hm, hpub]

theorem publishInvokes_process_device_empty (env : Env) (mappings : List MapRule)
    (d : Device) (clk pub : Nat) (hd : d.realtime.getD [] = []) :
    publishInvokes (process_device env mappings d clk pub).1 = [] := by
  unfold process_device
  induction mappings generalizing clk pub with
  | nil => rfl
  | cons r rest ih =>
      simp only [process_rules]
      have hf : ∀ m, format_mqtt_string d (env.clock m) = none := by
        intro m; simp [format_mqtt_string, hd]
      cases hm : is_match (r.device_keyword.getD "*") (d.devicename.getD "") (d.serialno.getD "") with
      | false =>
          rw [process_rule_no_match env d _ _ r clk pub hm]
          simpa [publishInvokes_append, publishInvokes] using ih clk pub
      | true =>
          rw [process_rule_fmt_none env d _ _ r clk pub hm (hf clk)]
          simpa [publishInvokes_append, publishInvokes] using ih (clk + 1) pub

/-- The publish invocations of a whole cycle, device by device. -/
theorem publishInvokes_process_devices_eq (env : Env)
    (hc : ∀ m, env.clock m = env.clock 0) (mappings : List MapRule) :
    ∀ (ds : List Device) (clk pub : Nat),
      publishInvokes (process_devices env mappings ds clk pub).1
        = (ds.map (fun d => (format_mqtt_string d (env.clock 0)).elim []
            (fun p => (mappings.filter (fun r =>
                is_match (r.device_keyword.getD "*") (d.devicename.getD "") (d.serialno.getD ""))).map
              (fun r => (p, r.mqtt))))).flatten := by
  intro ds
  induction ds with
  | nil => intro clk pub; rfl
  | cons d rest ih =>
      intro clk pub
      simp only [process_devices, publishInvokes_append, List.map_cons, List.flatten_cons]
      rw [show (process_device env mappings d clk pub).1
            = (process_rules env d (d.devicename.getD "") (d.serialno.getD "") mappings clk pub).1
          from rfl,
        publishInvokes_process_rules_eq env hc d _ _ mappings clk pub, ih]

/-- `format_mqtt_string` yields `none` exactly when the device carries no
sensor readings at all. -/
theorem format_mqtt_string_eq_none_iff (d : Device) (now : PyDateTime) :
    format_mqtt_string d now = none ↔ d.realtime.getD [] = [] := by
  unfold format_mqtt_string
  cases hd : d.realtime.getD [] with
  | nil => simp [hd]
  | cons a t => simp [hd]

/-- C4 (amended): the formatter yields no payload exactly for devices
whose `realtime` reading list is empty — not for devices with zero
recognized channels (see the counterexample); for such a device every
matching rule logs a `DATA_FORMAT_ERROR` diagnostic and no publish is
invoked, while the remaining devices of the same cycle are processed
exactly as if the empty device were absent. -/
theorem format_none_iff_no_readings :
    (∀ (d : Device) (now : PyDateTime),
        format_mqtt_string d now = none ↔ d.realtime.getD [] = [])
      ∧ (∀ (env : Env) (mappings : List MapRule) (d : Device) (clk pub : Nat),
          d.realtime.getD [] = [] →
          publishInvokes (process_device env mappings d clk pub).1 = [])
      ∧ (∀ (env : Env) (mappings : List MapRule) (d : Device) (ds : List Device)
          (clk pub : Nat), d.realtime.getD [] = [] →
          (∀ m, env.clock m = env.clock 0) →
          publishInvokes (process_devices env mappings (d :: ds) clk pub).1
            = publishInvokes (process_devices env mappings ds clk pub).1) := by
  refine ⟨?_, ?_, ?_⟩
  · exact format_mqtt_string_eq_none_iff
  · intro env mappings d clk pub hd
    exact publishInvokes_process_device_empty env mappings d clk pub hd
  · intro env mappings d ds clk pub hd hc
    rw [publishInvokes_process_devices_eq env hc mappings (d :: ds) clk pub,
      publishInvokes_process_devices_eq env hc mappings ds clk pub]
    have hf : format_mqtt_string d (env.clock 0) = none := by
      simp [format_mqtt_string, hd]
    simp [hf]

/-- Witness for `format_none_iff_no_readings` on a concrete cycle. -/
theorem format_none_iff_no_readings_witness :
    (format_mqtt_string devNoReadings t0 = none ↔ devNoReadings.realtime.getD [] = [])
      ∧ publishInvokes (process_device envSteady [ruleStar] devNoReadings 0 0).1 = []
      ∧ publishInvokes (process_devices envSteady [ruleStar] [devNoReadings, devCO2] 0 0).1
          = publishInvokes (process_devices envSteady [ruleStar] [devCO2] 0 0).1 :=
  ⟨format_none_iff_no_readings.1 devNoReadings t0,
   format_none_iff_no_readings.2.1 envSteady [ruleStar] devNoReadings 0 0 (by decide),
   format_none_iff_no_readings.2.2 envSteady [ruleStar] devNoReadings [devCO2] 0 0
     (by decide) (fun _ => rfl)⟩

/-! ### Claim C8: the match predicate -/

/-- C8: for every device and rule, the match test succeeds exactly when
the rule's keyword (defaulted to `"*"` when absent) equals `"*"`, or is a
case-sensitive contiguous substring of the device's name, or of its serial
number; it fails in all other cases. -/
theorem is_match_characterization (d : Device) (r : MapRule) :
    is_match (r.device_keyword.getD "*") (d.devicename.getD "") (d.serialno.getD "") = true
      ↔ (r.device_keyword.getD "*" = "*"
          ∨ (r.device_keyword.getD "*").data <:+: (d.devicename.getD "").data
          ∨ (r.device_keyword.getD "*").data <:+: (d.serialno.getD "").data) := by
  simp [is_match, py_in_iff, or_assoc]

/-! ### Claim C10: credentials redacted in the login audit entry -/

/-- C10: for every email and any two passwords, under every login outcome
the login-request audit entries emitted by `get_api_token` are identical —
the logged form always carries the literal `***REDACTED***` in place of
the password — while the POST to the API itself carries the real
password. -/
theorem login_log_password_independent (email p1 p2 : String) (res : AuthResult) :
    loginRequestLogs (get_api_token email p1 res).2
        = loginRequestLogs (get_api_token email p2 res).2
      ∧ (loginRequestLogs (get_api_token email p1 res).2).all
          (fun f => f.password == "***REDACTED***") = true
      ∧ Action.httpLoginPost ⟨email, p1⟩ ∈ (get_api_token email p1 res).2 := by
  cases res <;> simp [get_api_token, loginRequestLogs]

/-! ### Claim C5: behaviour on HTTP 401 -/

/-- C5: when the device-list fetch of a cycle returns HTTP 401 (with any
body), the runner invokes no publish in that cycle, clears its token, logs
an `API_TOKEN_EXPIRED` entry, and skips both sleeps (the `continue` at
line 175 jumps over the interval sleep); moreover, from a cleared token
any subsequent iteration performs the login POST before any device-list
fetch. -/
theorem run_job_step_on_401 (env env2 : Env) (email pw email2 pw2 t : String)
    (mappings mappings2 : List MapRule) (body : Option (List Device))
    (hf : env.fetch = .response 401 body) (ht : t ≠ "") :
    (run_job_step env email pw mappings (some t)).1 = none
      ∧ publishInvokes (run_job_step env email pw mappings (some t)).2 = []
      ∧ Action.logged "API_TOKEN_EXPIRED" ∈ (run_job_step env email pw mappings (some t)).2
      ∧ Action.sleepInterval ∉ (run_job_step env email pw mappings (some t)).2
      ∧ Action.sleepBackoff ∉ (run_job_step env email pw mappings (some t)).2
      ∧ authBeforeFetch (run_job_step env2 email2 pw2 mappings2 none).2 = true := by
  have hnt : py_not_token (some t) = false := by
    simp [py_not_token, ht]
  refine ⟨?_, ?_, ?_, ?_, ?_, ?_⟩
  · simp [run_job_step, hnt, fetch_phase, hf]
  · simp [run_job_step, hnt, fetch_phase, hf, publishInvokes]
  · simp [run_job_step, hnt, fetch_phase, hf]
  · simp [run_job_step, hnt, fetch_phase, hf]
  · simp [run_job_step, hnt, fetch_phase, hf]
  · cases hauth : env2.auth with
    | success t2 =>
        by_cases ht2 : t2 = ""
        · subst ht2
          simp [run_job_step, py_not_token, get_api_token, hauth, authBeforeFetch]
        · simp [run_job_step, py_not_token, get_api_token, hauth, ht2, authBeforeFetch]
    | failure => simp [run_job_step, py_not_token, get_api_token, hauth, authBeforeFetch]
    | ok200nonJson => simp [run_job_step, py_not_token, get_api_token, hauth, authBeforeFetch]
    | raised m => simp [run_job_step, py_not_token, get_api_token, hauth, authBeforeFetch]

/-- A fetch environment answering HTTP 401. -/
def env401 : Env :=
  ⟨AuthResult.failure, FetchResult.response 401 none, fun _ => t0, fun _ => true⟩

/-- Witness for `run_job_step_on_401` on concrete environments. -/
theorem run_job_step_on_401_witness :
    (run_job_step env401 "e" "p" [ruleStar] (some "tok")).1 = none
      ∧ publishInvokes (run_job_step env401 "e" "p" [ruleStar] (some "tok")).2 = []
      ∧ Action.logged "API_TOKEN_EXPIRED" ∈ (run_job_step env401 "e" "p" [ruleStar] (some "tok")).2
      ∧ Action.sleepInterval ∉ (run_job_step env401 "e" "p" [ruleStar] (some "tok")).2
      ∧ Action.sleepBackoff ∉ (run_job_step env401 "e" "p" [ruleStar] (some "tok")).2
      ∧ authBeforeFetch (run_job_step envSteady "e2" "p2" [ruleStar] none).2 = true :=
  run_job_step_on_401 env401 envSteady "e" "p" "e2" "p2" "tok" [ruleStar] [ruleStar] none
    rfl (by decide)

/-! ### Claim C6: error classification of a fetch cycle -/

/-- C6: entering a cycle with a (truthy) token, a fetch timeout and a
malformed/non-JSON body (on any non-401 status) are transient — the token
is kept, an error entry (`API_TIMEOUT_ERROR`, resp. `API_RESPONSE_ERROR`)
is logged, and the cycle ends normally with the interval sleep — while any
other unexpected exception clears the token (forcing re-authentication),
logs a `LOOP_EXCEPTION` entry, and also ends the cycle normally. -/
theorem run_job_step_error_classification (env : Env) (email pw t : String)
    (mappings : List MapRule) (ht : t ≠ "") :
    (env.fetch = .timeout →
        (run_job_step env email pw mappings (some t)).1 = some t
          ∧ Action.logged "API_TIMEOUT_ERROR" ∈ (run_job_step env email pw mappings (some t)).2
          ∧ Action.sleepInterval ∈ (run_job_step env email pw mappings (some t)).2)
      ∧ (∀ status, env.fetch = .response status none → status ≠ 401 →
          (run_job_step env email pw mappings (some t)).1 = some t
            ∧ Action.logged "API_RESPONSE_ERROR" ∈ (run_job_step env email pw mappings (some t)).2
            ∧ Action.sleepInterval ∈ (run_job_step env email pw mappings (some t)).2)
      ∧ (∀ msg, env.fetch = .raised msg →
          (run_job_step env email pw mappings (some t)).1 = none
            ∧ Action.logged "LOOP_EXCEPTION" ∈ (run_job_step env email pw mappings (some t)).2
            ∧ Action.sleepInterval ∈ (run_job_step env email pw mappings (some t)).2) := by
  have hnt : py_not_token (some t) = false := by
    simp [py_not_token, ht]
  refine ⟨fun hf => ?_, fun status hf h401 => ?_, fun msg hf => ?_⟩
  · refine ⟨?_, ?_, ?_⟩ <;> simp [run_job_step, hnt, fetch_phase, hf]
  · refine ⟨?_, ?_, ?_⟩ <;> simp [run_job_step, hnt, fetch_phase, hf, h401]
  · refine ⟨?_, ?_, ?_⟩ <;> simp [run_job_step, hnt, fetch_phase, hf]

/-- A fetch environment timing out. -/
def envTimeout : Env := ⟨AuthResult.failure, FetchResult.timeout, fun _ => t0, fun _ => true⟩

/-- A fetch environment answering a non-JSON body with status 500. -/
def envMalformed : Env :=
  ⟨AuthResult.failure, FetchResult.response 500 none, fun _ => t0, fun _ => true⟩

/-- A fetch environment raising an unexpected exception. -/
def envRaised : Env :=
  ⟨AuthResult.failure, FetchResult.raised "boom", fun _ => t0, fun _ => true⟩

/-- Witness for `run_job_step_error_classification` on the three concrete
environments. -/
theorem run_job_step_error_classification_witness :
    ((run_job_step envTimeout "e" "p" [ruleStar] (some "tok")).1 = some "tok"
        ∧ Action.logged "API_TIMEOUT_ERROR" ∈ (run_job_step envTimeout "e" "p" [ruleStar] (some "tok")).2
        ∧ Action.sleepInterval ∈ (run_job_step envTimeout "e" "p" [ruleStar] (some "tok")).2)
      ∧ ((run_job_step envMalformed "e" "p" [ruleStar] (some "tok")).1 = some "tok"
        ∧ Action.logged "API_RESPONSE_ERROR" ∈ (run_job_step envMalformed "e" "p" [ruleStar] (some "tok")).2
        ∧ Action.sleepInterval ∈ (run_job_step envMalformed "e" "p" [ruleStar] (some "tok")).2)
      ∧ ((run_job_step envRaised "e" "p" [ruleStar] (some "tok")).1 = none
        ∧ Action.logged "LOOP_EXCEPTION" ∈ (run_job_step envRaised "e" "p" [ruleStar] (some "tok")).2
        ∧ Action.sleepInterval ∈ (run_job_step envRaised "e" "p" [ruleStar] (some "tok")).2) :=
  ⟨(run_job_step_error_classification envTimeout "e" "p" "tok" [ruleStar] (by decide)).1 rfl,
   (run_job_step_error_classification envMalformed "e" "p" "tok" [ruleStar] (by decide)).2.1
     500 rfl (by decide),
   (run_job_step_error_classification envRaised "e" "p" "tok" [ruleStar] (by decide)).2.2
     "boom" rfl⟩

/-! ### Claim C7: fan-out to every matching rule with one payload -/

/-- C7: under a steady clock, for a device with at least one sensor
reading, the cycle invokes publish once per matching rule — every matching
rule fires, not just the first — and all these invocations carry one and
the same payload string; in particular two rules matching the same device
both receive a publish of the same payload. -/
theorem process_device_fanout (env : Env) (mappings : List MapRule) (d : Device)
    (clk pub : Nat) (hc : ∀ m, env.clock m = env.clock 0)
    (hd : d.realtime.getD [] ≠ []) :
    ∃ p, format_mqtt_string d (env.clock 0) = some p
      ∧ publishInvokes (process_device env mappings d clk pub).1
          = (mappings.filter (fun r =>
              is_match (r.device_keyword.getD "*") (d.devicename.getD "") (d.serialno.getD ""))).map
            (fun r => (p, r.mqtt)) := by
  obtain ⟨p, hp⟩ : ∃ p, format_mqtt_string d (env.clock 0) = some p := by
    cases hfmt : format_mqtt_string d (env.clock 0) with
    | some q => exact ⟨q, rfl⟩
    | none =>
        exact absurd ((format_mqtt_string_eq_none_iff d (env.clock 0)).mp hfmt) hd
  refine ⟨p, hp, ?_⟩
  rw [show (process_device env mappings d clk pub).1
        = (process_rules env d (d.devicename.getD "") (d.serialno.getD "") mappings clk pub).1
      from rfl,
    publishInvokes_process_rules_eq env hc d _ _ mappings clk pub, hp]
  rfl

/-- Witness for `process_device_fanout`: `devCO2` (name "Sensor-B") is
matched both by the catch-all rule and by the "Sensor" keyword rule. -/
theorem process_device_fanout_witness :
    ∃ p, format_mqtt_string devCO2 (envSteady.clock 0) = some p
      ∧ publishInvokes (process_device envSteady [ruleStar, ruleSensor] devCO2 0 0).1
          = (([ruleStar, ruleSensor]).filter (fun r =>
              is_match (r.device_keyword.getD "*") (devCO2.devicename.getD "")
                (devCO2.serialno.getD ""))).map
            (fun r => (p, r.mqtt)) :=
  process_device_fanout envSteady [ruleStar, ruleSensor] devCO2 0 0
    (fun _ => rfl) (by decide)

/-! ### Claim C9: concurrent appends are serializable -/

/-- C9: any interleaved execution of concurrent `log_event` workers that
runs every worker to completion leaves the shared log file equal to some
serial order of the appends: each append is atomic relative to the others
(the lock guards the whole read-modify-write cycle), so no interleaved or
torn entries appear and no append is lost to a concurrent overwrite. -/
theorem log_append_serializable {n : Nat} (entries : Fin n → String) (f0 : List String)
    (s : LogConcurrency.Sys n)
    (hreach : Relation.ReflTransGen (LogConcurrency.Step entries) (LogConcurrency.init n f0) s)
    (hdone : ∀ i, s.th i = LogConcurrency.TState.done) :
    ∃ order : List (Fin n), order.Nodup ∧ (∀ i, i ∈ order) ∧
      s.file = order.foldl (fun f i => log_event f (entries i)) f0 := by
  obtain ⟨order, hnd, hmem, hfile, -, -⟩ :=
    LogConcurrency.Inv_reach hreach (LogConcurrency.Inv_init entries f0)
  exact ⟨order, hnd, fun i => (hmem i).mpr (Or.inr (hdone i)), hfile⟩

/-- Entries appended by the two demo workers. -/
def demoEntries : Fin 2 → String :=
  fun i => if i = 0 then "[t] [JobA] EV | a" else "[t] [JobB] EV | b"

/-- A complete two-worker execution (worker 0's full critical section,
then worker 1's). -/
def demoRun : LogConcurrency.Sys 2 :=
  ((((((((LogConcurrency.init 2 []).doAcquire 0).doRead 0).doWrite demoEntries 0
      []).doRelease 0).doAcquire 1).doRead 1).doWrite demoEntries 1
      (log_event [] (demoEntries 0))).doRelease 1

/-- Witness for `log_append_serializable` on the two-worker execution. -/
theorem log_append_serializable_witness :
    ∃ order : List (Fin 2), order.Nodup ∧ (∀ i, i ∈ order) ∧
      demoRun.file = order.foldl (fun f i => log_event f (demoEntries i)) [] := by
  refine log_append_serializable demoEntries [] demoRun ?_ (by decide)
  exact Relation.ReflTransGen.tail (Relation.ReflTransGen.tail (Relation.ReflTransGen.tail
    (Relation.ReflTransGen.tail (Relation.ReflTransGen.tail (Relation.ReflTransGen.tail
    (Relation.ReflTransGen.tail (Relation.ReflTransGen.tail Relation.ReflTransGen.refl
      (LogConcurrency.Step.acquire 0 _ rfl rfl))
      (LogConcurrency.Step.read 0 _ rfl rfl))
      (LogConcurrency.Step.write 0 _ [] rfl rfl))
      (LogConcurrency.Step.release 0 _ rfl rfl))
      (LogConcurrency.Step.acquire 1 _ rfl rfl))
      (LogConcurrency.Step.read 1 _ rfl rfl))
      (LogConcurrency.Step.write 1 _ (log_event [] (demoEntries 0)) rfl rfl))
      (LogConcurrency.Step.release 1 _ rfl rfl)

end ApiToMqtt
